import Mathlib

/-!
Shallow embedding of `src/cmuqiskit/backend.py` (class `Backend`).

The class wires together three externally supplied components: a provider
(`FakeQuebec`, instantiated with no arguments), an executor (`SamplerV2`,
configured by an options dictionary) and a transpiler
(`generate_preset_pass_manager`, configured by fixed keyword arguments).
External handles are modelled by the configuration they receive, since the
library internals are out of scope.  Fallible construction is modelled with
`Except`: a Python `ValueError` or `AssertionError` becomes an explicit
error value.
-/

namespace CMUQiskit

/-- The external provider handle.  `Backend._new_provider` instantiates
`FakeQuebec()` with no arguments, so the handle carries no configuration. -/
inductive ProviderHandle
  | fakeQuebec
  deriving DecidableEq

/-- The external executor handle (`SamplerV2`), modelled by the arguments it
receives: the provider passed as `mode` and the nested options dictionary
(an association list for the outer dict, whose `"simulator"` entry is the
inner association list). -/
structure ExecutorHandle where
  mode : ProviderHandle
  options : List (String × List (String × Int))
  deriving DecidableEq

/-- The external transpiler handle (`generate_preset_pass_manager`), modelled
by the keyword arguments it receives, in source order. -/
structure TranspilerHandle where
  seed_transpiler : Option Int
  optimization_level : Nat
  backend : ProviderHandle
  layout_method : String
  routing_method : String
  translation_method : String
  scheduling_method : String
  approximation_degree : Rat
  unitary_synthesis_method : String
  deriving DecidableEq

/-- Python exceptions raised during construction. -/
inductive BackendError
  | valueError (msg : String)
  | assertionError (msg : String)
  deriving DecidableEq

/-- The `Backend` object: the four configuration attributes set at the top of
`__init__`, plus the three external handles. -/
structure Backend where
  provider : String
  executor : String
  transpiler_seed : Option Int
  simulator_seed : Option Int
  _provider : ProviderHandle
  _executor : ExecutorHandle
  _transpiler : TranspilerHandle
  deriving DecidableEq

/-- `Backend._new_provider`: return a fresh fake provider when `provider` is
`simulator`, otherwise raise `ValueError` naming the provider value. -/
def Backend._new_provider (provider : String) : Except BackendError ProviderHandle :=
  if provider = "simulator" then
    Except.ok ProviderHandle.fakeQuebec
  else
    Except.error (BackendError.valueError ("Provider " ++ provider ++ " is not supported"))

/-- `Backend._new_executor`: build the options dictionary (the inner
`simulator` dict gets a `seed_simulator` entry exactly when `seed` is not
`None`), then return a sampler when `executor` is `sampler`, otherwise raise
`ValueError` naming the executor value. -/
def Backend._new_executor (provider : ProviderHandle) (executor : String)
    (seed : Option Int) : Except BackendError ExecutorHandle :=
  let simulatorOptions : List (String × Int) :=
    match seed with
    | none => []
    | some s => [("seed_simulator", s)]
  let options : List (String × List (String × Int)) := [("simulator", simulatorOptions)]
  if executor = "sampler" then
    Except.ok ⟨provider, options⟩
  else
    Except.error (BackendError.valueError ("Method \"" ++ executor ++ "\" is not implemented"))

/-- `Backend._new_transpiler`: `assert seed is None or seed >= 0`, then call
`generate_preset_pass_manager` with the fixed keyword arguments of the source. -/
def Backend._new_transpiler (provider : ProviderHandle)
    (seed : Option Int) : Except BackendError TranspilerHandle :=
  match seed with
  | some s =>
    if s < 0 then
      Except.error (BackendError.assertionError "Transpiler seed must be non-negative")
    else
      Except.ok ⟨some s, 3, provider, "sabre", "sabre", "translator", "asap", 1, "default"⟩
  | none =>
      Except.ok ⟨none, 3, provider, "sabre", "sabre", "translator", "asap", 1, "default"⟩

/-- `Backend.__init__`: store the four configuration attributes, then perform
the three factory calls in order, each of which may raise (abort the whole
construction). -/
def Backend.init (provider executor : String)
    (transpiler_seed simulator_seed : Option Int) : Except BackendError Backend := do
  let p ← Backend._new_provider provider
  let e ← Backend._new_executor p executor simulator_seed
  let t ← Backend._new_transpiler p transpiler_seed
  Except.ok ⟨provider, executor, transpiler_seed, simulator_seed, p, e, t⟩

/-- How a Python f-string renders an `Optional[int]`: `None` for `None`,
decimal notation for an `int`. -/
def pyOptInt (o : Option Int) : String :=
  match o with
  | none => "None"
  | some s => toString s

/-- `Backend.__repr__`, read with explicit state passing: the result string
together with the object as it stands after the call (the body only reads the
four configuration attributes). -/
def Backend.reprState (b : Backend) : String × Backend :=
  ("<Backend: provider=" ++ b.provider ++ ", " ++
   "executor=" ++ b.executor ++ ", " ++
   "transpiler_seed=" ++ pyOptInt b.transpiler_seed ++ ", " ++
   "simulator_seed=" ++ pyOptInt b.simulator_seed ++ ">", b)

/-- The string returned by `Backend.__repr__`. -/
def Backend.repr (b : Backend) : String := (Backend.reprState b).1

/-- Modelled from the spec: the repository also holds a second, near-identical
definition of the factory class outside `src/`, in which the non-negative
check on the transpiler seed is "silently dropped".  This is that variant
transpiler factory: identical to `Backend._new_transpiler` but without the
assertion. -/
def Backend._new_transpiler_nv (provider : ProviderHandle)
    (seed : Option Int) : Except BackendError TranspilerHandle :=
  Except.ok ⟨seed, 3, provider, "sabre", "sabre", "translator", "asap", 1, "default"⟩

/-- Modelled from the spec: the non-validating variant constructor, identical
to `Backend.init` except that it uses the variant transpiler factory. -/
def Backend.init_nv (provider executor : String)
    (transpiler_seed simulator_seed : Option Int) : Except BackendError Backend := do
  let p ← Backend._new_provider provider
  let e ← Backend._new_executor p executor simulator_seed
  let t ← Backend._new_transpiler_nv p transpiler_seed
  Except.ok ⟨provider, executor, transpiler_seed, simulator_seed, p, e, t⟩

/-- The inner `simulator` options dictionary that `Backend._new_executor`
builds from the simulator seed. -/
def simOptions (seed : Option Int) : List (String × Int) :=
  match seed with
  | none => []
  | some s => [("seed_simulator", s)]

/-- The `Backend` value produced by a successful construction, as a function of
the arguments (used to characterise `Backend.init`). -/
def builtBackend (p e : String) (ts ss : Option Int) : Backend :=
  ⟨p, e, ts, ss, ProviderHandle.fakeQuebec,
   ⟨ProviderHandle.fakeQuebec, [("simulator", simOptions ss)]⟩,
   ⟨ts, 3, ProviderHandle.fakeQuebec, "sabre", "sabre", "translator", "asap", 1, "default"⟩⟩

/-- Evaluation of `Backend.init` on an unsupported provider string. -/
lemma init_eval_bad_provider (p e : String) (ts ss : Option Int) (hp : p ≠ "simulator") :
    Backend.init p e ts ss =
      Except.error (BackendError.valueError ("Provider " ++ p ++ " is not supported")) := by
  simp [Backend.init, Backend._new_provider, hp, bind, Except.bind]

/-- Evaluation of `Backend.init` on an unsupported executor string. -/
lemma init_eval_bad_executor (e : String) (ts ss : Option Int) (he : e ≠ "sampler") :
    Backend.init "simulator" e ts ss =
      Except.error (BackendError.valueError ("Method \"" ++ e ++ "\" is not implemented")) := by
  simp [Backend.init, Backend._new_provider, Backend._new_executor, he, bind, Except.bind]

/-- Evaluation of `Backend.init` on a negative transpiler seed. -/
lemma init_eval_neg_seed (s : Int) (ss : Option Int) (hs : s < 0) :
    Backend.init "simulator" "sampler" (some s) ss =
      Except.error (BackendError.assertionError "Transpiler seed must be non-negative") := by
  simp [Backend.init, Backend._new_provider, Backend._new_executor,
    Backend._new_transpiler, hs, bind, Except.bind]

/-- Evaluation of `Backend.init` when every check passes. -/
lemma init_eval_ok (ts ss : Option Int) (hts : ∀ s, ts = some s → 0 ≤ s) :
    Backend.init "simulator" "sampler" ts ss =
      Except.ok (builtBackend "simulator" "sampler" ts ss) := by
  cases ts with
  | none => rfl
  | some s =>
    have hs : ¬ s < 0 := not_lt.mpr (hts s rfl)
    simp only [Backend.init, Backend._new_provider, Backend._new_executor,
      Backend._new_transpiler, if_neg hs, bind, Except.bind, builtBackend]
    rfl

/-- Characterisation of `Backend.init`: it succeeds exactly when the provider,
executor and transpiler-seed checks all pass, and then returns `builtBackend`. -/
lemma init_ok_iff (p e : String) (ts ss : Option Int) (b : Backend) :
    Backend.init p e ts ss = Except.ok b ↔
      p = "simulator" ∧ e = "sampler" ∧ (∀ s, ts = some s → 0 ≤ s) ∧
      b = builtBackend p e ts ss := by
  constructor
  · intro h
    by_cases hp : p = "simulator"
    case neg =>
      rw [init_eval_bad_provider p e ts ss hp] at h
      exact absurd h (by simp)
    subst hp
    by_cases he : e = "sampler"
    case neg =>
      rw [init_eval_bad_executor e ts ss he] at h
      exact absurd h (by simp)
    subst he
    have hts : ∀ s, ts = some s → 0 ≤ s := by
      intro s hv
      subst hv
      by_contra hneg
      push_neg at hneg
      rw [init_eval_neg_seed s ss hneg] at h
      exact absurd h (by simp)
    rw [init_eval_ok ts ss hts] at h
    injection h with h
    exact ⟨rfl, rfl, hts, h.symm⟩
  · rintro ⟨rfl, rfl, hts, rfl⟩
    exact init_eval_ok ts ss hts

/-- C1: for every provider string other than `simulator`, construction fails
with a `ValueError` whose message names the unsupported provider value, so no
handle object is returned. -/
theorem init_unsupported_provider (p e : String) (ts ss : Option Int)
    (h : p ≠ "simulator") :
    Backend.init p e ts ss =
      Except.error (BackendError.valueError ("Provider " ++ p ++ " is not supported")) := by
  simp [Backend.init, Backend._new_provider, h, bind, Except.bind]

/-- Witness for C1 at `provider = ibm_xxx`. -/
theorem init_unsupported_provider_witness :
    Backend.init "ibm_xxx" "sampler" none none =
      Except.error (BackendError.valueError ("Provider " ++ "ibm_xxx" ++ " is not supported")) :=
  init_unsupported_provider "ibm_xxx" "sampler" none none (by decide)

/-- C2: with provider `simulator`, every executor string other than
`sampler` makes construction fail with a `ValueError` naming the offending
executor value. -/
theorem init_unsupported_executor (e : String) (ts ss : Option Int)
    (h : e ≠ "sampler") :
    Backend.init "simulator" e ts ss =
      Except.error (BackendError.valueError ("Method \"" ++ e ++ "\" is not implemented")) := by
  simp [Backend.init, Backend._new_provider, Backend._new_executor, h, bind, Except.bind]

/-- Witness for C2 at `executor = estimator`. -/
theorem init_unsupported_executor_witness :
    Backend.init "simulator" "estimator" none none =
      Except.error (BackendError.valueError ("Method \"" ++ "estimator" ++ "\" is not implemented")) :=
  init_unsupported_executor "estimator" none none (by decide)

/-- C3: with provider `simulator` and executor `sampler`, construction
raises the assertion error exactly when the supplied transpiler seed is a
negative integer; a seed of `None` or any non-negative integer passes the
check and construction succeeds. -/
theorem init_assertion_iff_negative_transpiler_seed (ts ss : Option Int) :
    (Backend.init "simulator" "sampler" ts ss =
        Except.error (BackendError.assertionError "Transpiler seed must be non-negative")
      ↔ ∃ s, ts = some s ∧ s < 0) ∧
    ((∃ b, Backend.init "simulator" "sampler" ts ss = Except.ok b)
      ↔ ∀ s, ts = some s → 0 ≤ s) := by
  constructor
  · constructor
    · intro h
      by_contra hne
      push_neg at hne
      rw [init_eval_ok ts ss hne] at h
      exact absurd h (by simp)
    · rintro ⟨s, rfl, hs⟩
      exact init_eval_neg_seed s ss hs
  · constructor
    · rintro ⟨b, hb⟩
      exact ((init_ok_iff _ _ _ _ _).mp hb).2.2.1
    · intro hts
      exact ⟨_, init_eval_ok ts ss hts⟩

/-- C4: for the supported combination `simulator`/`sampler` and any legal
seeds, construction succeeds, the four configuration attributes hold the
values passed in, and `__repr__` reports exactly those four values. -/
theorem init_supported_succeeds_and_repr_echoes (ts ss : Option Int)
    (h : ∀ s, ts = some s → 0 ≤ s) :
    ∃ b, Backend.init "simulator" "sampler" ts ss = Except.ok b ∧
      b.provider = "simulator" ∧ b.executor = "sampler" ∧
      b.transpiler_seed = ts ∧ b.simulator_seed = ss ∧
      Backend.repr b =
        "<Backend: provider=simulator, executor=sampler, transpiler_seed=" ++
          pyOptInt ts ++ ", simulator_seed=" ++ pyOptInt ss ++ ">" := by
  refine ⟨builtBackend "simulator" "sampler" ts ss,
    init_eval_ok ts ss h, rfl, rfl, rfl, rfl, ?_⟩
  simp [Backend.repr, Backend.reprState, builtBackend, String.append_assoc]

/-- Witness for C4 at `transpiler_seed = 7`, `simulator_seed = -5`. -/
theorem init_supported_succeeds_and_repr_echoes_witness :
    ∃ b, Backend.init "simulator" "sampler" (some 7) (some (-5)) = Except.ok b ∧
      b.provider = "simulator" ∧ b.executor = "sampler" ∧
      b.transpiler_seed = some 7 ∧ b.simulator_seed = some (-5) ∧
      Backend.repr b =
        "<Backend: provider=simulator, executor=sampler, transpiler_seed=" ++
          pyOptInt (some 7) ++ ", simulator_seed=" ++ pyOptInt (some (-5)) ++ ">" :=
  init_supported_succeeds_and_repr_echoes (some 7) (some (-5))
    (by intro s hv; injection hv with hv; omega)

/-- C5: two constructions given the same seed arguments configure the external
handles identically, and the seeds are passed through verbatim: the simulator
seed lands unchanged in the executor options and the transpiler seed is handed
unchanged to the transpiler factory. -/
theorem seed_passthrough_deterministic (ts ss : Option Int) (b1 b2 : Backend)
    (h1 : Backend.init "simulator" "sampler" ts ss = Except.ok b1)
    (h2 : Backend.init "simulator" "sampler" ts ss = Except.ok b2) :
    b1._executor = b2._executor ∧ b1._transpiler = b2._transpiler ∧
    b1._executor.options = [("simulator", simOptions ss)] ∧
    b1._transpiler.seed_transpiler = ts := by
  obtain ⟨-, -, -, rfl⟩ := (init_ok_iff _ _ _ _ _).mp h1
  obtain ⟨-, -, -, rfl⟩ := (init_ok_iff _ _ _ _ _).mp h2
  exact ⟨rfl, rfl, rfl, rfl⟩

/-- Witness for C5 at `transpiler_seed = 3`, `simulator_seed = 9`. -/
theorem seed_passthrough_deterministic_witness :
    (builtBackend "simulator" "sampler" (some 3) (some 9))._executor.options =
      [("simulator", [("seed_simulator", (9 : Int))])] ∧
    (builtBackend "simulator" "sampler" (some 3) (some 9))._transpiler.seed_transpiler =
      some 3 := by
  have h := seed_passthrough_deterministic (some 3) (some 9)
    (builtBackend "simulator" "sampler" (some 3) (some 9))
    (builtBackend "simulator" "sampler" (some 3) (some 9))
    (init_eval_ok (some 3) (some 9) (by intro s hv; injection hv with hv; omega))
    (init_eval_ok (some 3) (some 9) (by intro s hv; injection hv with hv; omega))
  exact ⟨h.2.2.1, h.2.2.2⟩

/-- C6: the two variants of the factory class behave identically on every
input except when the provider and executor checks pass and the transpiler
seed is negative: there the validating variant raises the assertion error
while the non-validating variant succeeds. -/
theorem variants_agree_except_seed_assertion (p e : String) (ts ss : Option Int) :
    (¬(p = "simulator" ∧ e = "sampler" ∧ ∃ s, ts = some s ∧ s < 0) →
        Backend.init_nv p e ts ss = Backend.init p e ts ss) ∧
    ((p = "simulator" ∧ e = "sampler" ∧ ∃ s, ts = some s ∧ s < 0) →
        Backend.init p e ts ss =
          Except.error (BackendError.assertionError "Transpiler seed must be non-negative") ∧
        ∃ b, Backend.init_nv p e ts ss = Except.ok b) := by
  constructor
  · intro hne
    by_cases hp : p = "simulator"
    case neg =>
      simp [Backend.init, Backend.init_nv, Backend._new_provider, hp, bind, Except.bind]
    subst hp
    by_cases he : e = "sampler"
    case neg =>
      simp [Backend.init, Backend.init_nv, Backend._new_provider, Backend._new_executor,
        he, bind, Except.bind]
    subst he
    have hts : ∀ s, ts = some s → 0 ≤ s := by
      intro s hv
      subst hv
      by_contra hneg
      push_neg at hneg
      exact hne ⟨rfl, rfl, s, rfl, hneg⟩
    rw [init_eval_ok ts ss hts]
    rfl
  · rintro ⟨rfl, rfl, s, rfl, hs⟩
    exact ⟨init_eval_neg_seed s ss hs,
      ⟨builtBackend "simulator" "sampler" (some s) ss, rfl⟩⟩

/-- Witness for C6 at `transpiler_seed = -1`: the validating variant raises,
the non-validating variant returns an object. -/
theorem variants_agree_except_seed_assertion_witness :
    Backend.init "simulator" "sampler" (some (-1)) none =
      Except.error (BackendError.assertionError "Transpiler seed must be non-negative") ∧
    ∃ b, Backend.init_nv "simulator" "sampler" (some (-1)) none = Except.ok b :=
  (variants_agree_except_seed_assertion "simulator" "sampler" (some (-1)) none).2
    ⟨rfl, rfl, -1, rfl, by decide⟩

/-- C7: construction is atomic with respect to failure: whenever any check or
factory call fails, `init` yields an error and no `Backend` object is ever
returned to the caller. -/
theorem init_failure_is_atomic (p e : String) (ts ss : Option Int)
    (h : p ≠ "simulator" ∨ e ≠ "sampler" ∨ ∃ s, ts = some s ∧ s < 0) :
    (∃ err, Backend.init p e ts ss = Except.error err) ∧
    ∀ b, Backend.init p e ts ss ≠ Except.ok b := by
  have hnotok : ∀ b, Backend.init p e ts ss ≠ Except.ok b := by
    intro b hb
    obtain ⟨rfl, rfl, hts, -⟩ := (init_ok_iff _ _ _ _ _).mp hb
    rcases h with h | h | ⟨s, rfl, hneg⟩
    · exact h rfl
    · exact h rfl
    · exact absurd (hts s rfl) (by omega)
  refine ⟨?_, hnotok⟩
  cases hi : Backend.init p e ts ss with
  | error err => exact ⟨err, rfl⟩
  | ok b => exact absurd hi (hnotok b)

/-- Witness for C7 at the unsupported provider `ibm_quebec`. -/
theorem init_failure_is_atomic_witness :
    (∃ err, Backend.init "ibm_quebec" "sampler" none none = Except.error err) ∧
    ∀ b, Backend.init "ibm_quebec" "sampler" none none ≠ Except.ok b :=
  init_failure_is_atomic "ibm_quebec" "sampler" none none (Or.inl (by decide))

/-- C8: every successful construction generates the transpiler with the fixed
settings of the source (optimization level 3, sabre layout and routing,
translator translation, asap scheduling, approximation degree 1.0, default
unitary synthesis), targeting the constructed provider, with the transpiler
seed as the only varying input. -/
theorem init_transpiler_fixed_settings (p e : String) (ts ss : Option Int) (b : Backend)
    (h : Backend.init p e ts ss = Except.ok b) :
    b._transpiler.optimization_level = 3 ∧
    b._transpiler.layout_method = "sabre" ∧
    b._transpiler.routing_method = "sabre" ∧
    b._transpiler.translation_method = "translator" ∧
    b._transpiler.scheduling_method = "asap" ∧
    b._transpiler.approximation_degree = 1 ∧
    b._transpiler.unitary_synthesis_method = "default" ∧
    b._transpiler.backend = b._provider ∧
    b._transpiler.seed_transpiler = ts := by
  obtain ⟨-, -, -, rfl⟩ := (init_ok_iff _ _ _ _ _).mp h
  exact ⟨rfl, rfl, rfl, rfl, rfl, rfl, rfl, rfl, rfl⟩

/-- Witness for C8 at default arguments. -/
theorem init_transpiler_fixed_settings_witness :
    (builtBackend "simulator" "sampler" none none)._transpiler.optimization_level = 3 ∧
    (builtBackend "simulator" "sampler" none none)._transpiler.layout_method = "sabre" ∧
    (builtBackend "simulator" "sampler" none none)._transpiler.routing_method = "sabre" ∧
    (builtBackend "simulator" "sampler" none none)._transpiler.translation_method = "translator" ∧
    (builtBackend "simulator" "sampler" none none)._transpiler.scheduling_method = "asap" ∧
    (builtBackend "simulator" "sampler" none none)._transpiler.approximation_degree = 1 ∧
    (builtBackend "simulator" "sampler" none none)._transpiler.unitary_synthesis_method = "default" ∧
    (builtBackend "simulator" "sampler" none none)._transpiler.backend =
      (builtBackend "simulator" "sampler" none none)._provider ∧
    (builtBackend "simulator" "sampler" none none)._transpiler.seed_transpiler = none :=
  init_transpiler_fixed_settings "simulator" "sampler" none none
    (builtBackend "simulator" "sampler" none none)
    (init_eval_ok none none (by simp))

/-- C9: a constructed `Backend` is immutable: the three handles are exactly
the results of the three factory calls made once during `__init__`, the
attributes are exactly the arguments stored there, and `__repr__` leaves the
object unchanged. -/
theorem init_handles_assigned_once (p e : String) (ts ss : Option Int) (b : Backend)
    (h : Backend.init p e ts ss = Except.ok b) :
    Backend._new_provider p = Except.ok b._provider ∧
    Backend._new_executor b._provider e ss = Except.ok b._executor ∧
    Backend._new_transpiler b._provider ts = Except.ok b._transpiler ∧
    b = ⟨p, e, ts, ss, b._provider, b._executor, b._transpiler⟩ ∧
    (Backend.reprState b).2 = b := by
  obtain ⟨rfl, rfl, hts, rfl⟩ := (init_ok_iff _ _ _ _ _).mp h
  refine ⟨rfl, rfl, ?_, rfl, rfl⟩
  cases ts with
  | none => rfl
  | some s =>
    have hs : ¬ s < 0 := not_lt.mpr (hts s rfl)
    simp [Backend._new_transpiler, hs, builtBackend]

/-- Witness for C9 at `transpiler_seed = 0`, `simulator_seed = 2`. -/
theorem init_handles_assigned_once_witness :
    Backend._new_provider "simulator" =
      Except.ok (builtBackend "simulator" "sampler" (some 0) (some 2))._provider ∧
    Backend._new_executor (builtBackend "simulator" "sampler" (some 0) (some 2))._provider
        "sampler" (some 2) =
      Except.ok (builtBackend "simulator" "sampler" (some 0) (some 2))._executor ∧
    Backend._new_transpiler (builtBackend "simulator" "sampler" (some 0) (some 2))._provider
        (some 0) =
      Except.ok (builtBackend "simulator" "sampler" (some 0) (some 2))._transpiler ∧
    builtBackend "simulator" "sampler" (some 0) (some 2) =
      ⟨"simulator", "sampler", some 0, some 2,
       (builtBackend "simulator" "sampler" (some 0) (some 2))._provider,
       (builtBackend "simulator" "sampler" (some 0) (some 2))._executor,
       (builtBackend "simulator" "sampler" (some 0) (some 2))._transpiler⟩ ∧
    (Backend.reprState (builtBackend "simulator" "sampler" (some 0) (some 2))).2 =
      builtBackend "simulator" "sampler" (some 0) (some 2) :=
  init_handles_assigned_once "simulator" "sampler" (some 0) (some 2)
    (builtBackend "simulator" "sampler" (some 0) (some 2))
    (init_eval_ok (some 0) (some 2) (by intro s hv; injection hv with hv; omega))

/-- C10: the simulator seed is never validated: construction succeeds for
every simulator seed (negative ones included), and the executor options carry
`seed_simulator` exactly when a seed was given, the inner simulator options
being the empty mapping otherwise. -/
theorem simulator_seed_never_validated (ss : Option Int) :
    ∃ b, Backend.init "simulator" "sampler" none ss = Except.ok b ∧
      b._executor.options = [("simulator", simOptions ss)] :=
  ⟨builtBackend "simulator" "sampler" none ss,
    init_eval_ok none ss (by simp), rfl⟩

end CMUQiskit
